import Mathlib

/-!
# Rimborso KM — verification of the browser-side core

Shallow embedding of the client-side logic of the "Rimborso KM" trip
reimbursement application: the reactive reimbursement estimate and form
validation (`trasferte.js`), the archive selection/filter/export
bookkeeping (`archivio.js`), and the address-autocomplete pipeline
(geocoding client and debounced controller).

JavaScript numbers produced by `parseFloat`/`parseInt` are modelled as
`Option ℚ` / `Option Nat` where `none` stands for `NaN`; JS truthiness
of such values is made explicit.  DOM state touched by the handlers is
carried as explicit record fields, and each event handler becomes a pure
step function on that state.
-/

namespace RimborsoKM

/-- JS truthiness of a `parseInt` result: `NaN` (`none`) and `0` are falsy. -/
def intTruthy : Option Nat → Bool
  | none => false
  | some n => n != 0

/-- JS truthiness of a `parseFloat` result: `NaN` (`none`) and `0` are falsy. -/
def floatTruthy : Option ℚ → Bool
  | none => false
  | some q => q != 0

/-- `parseFloat(x) || 0`: replace `NaN` by `0`. -/
def parseFloatOr0 : Option ℚ → ℚ
  | none => 0
  | some q => q

/-- JS truthiness of a string: the empty string is falsy. -/
def strTruthy (s : String) : Bool := s ≠ ""

/-- `/^\d{5}$/.test cap`: exactly five decimal digits. -/
def isCap5 (cap : String) : Bool :=
  cap.data.length == 5 && cap.data.all Char.isDigit

/-! ## Trip form: reactive reimbursement estimate (`trasferte.js`, `aggiornaRimborso`) -/

/-- A vehicle as loaded from `/api/veicoli`: identifier and per-km rate. -/
structure Veicolo where
  id : Nat
  tariffa_km : ℚ
  deriving DecidableEq, Repr

/-- The text content of the `rimborso-stimato` element: either the literal
zero amount `€ 0,00` or `formattaValuta` applied to a computed amount. -/
inductive RimborsoDisplay where
  | zeroText
  | valuta (importo : ℚ)
  deriving DecidableEq, Repr

/-- `aggiornaRimborso` from `trasferte.js`: recomputes the estimate from the
current distance field (`parseFloat` result), vehicle selection (`parseInt`
result), and round-trip checkbox.  When the vehicle id is falsy or the
effective km is not positive it writes the literal zero amount; when the
selected id is not found among the loaded vehicles it returns without
touching the display (`prev`). -/
def aggiornaRimborso (veicoli : List Veicolo) (kmValue : Option ℚ)
    (vehicleValue : Option Nat) (andataRitorno : Bool)
    (prev : RimborsoDisplay) : RimborsoDisplay :=
  let km0 := parseFloatOr0 kmValue
  let km := if andataRitorno then km0 * 2 else km0
  if intTruthy vehicleValue = false ∨ km ≤ 0 then
    .zeroText
  else
    match veicoli.find? (fun v => v.id == vehicleValue.getD 0) with
    | none => prev
    | some vehicle => .valuta (km * vehicle.tariffa_km)

/-- C1: with a selected vehicle of rate `r` found in the vehicle list and a
distance parsing to `k > 0`, the recomputed estimate is
`k × (2 if round-trip else 1) × r`; when no vehicle is selected, or the
effective km is not strictly positive, the display is the zero amount. -/
theorem aggiornaRimborso_estimate
    (veicoli : List Veicolo) (vid : Nat) (hvid : vid ≠ 0)
    (v : Veicolo) (hfind : veicoli.find? (fun w => w.id == vid) = some v)
    (k : ℚ) (hk : 0 < k) (rt : Bool) (prev : RimborsoDisplay) :
    aggiornaRimborso veicoli (some k) (some vid) rt prev
      = .valuta (k * (if rt then 2 else 1) * v.tariffa_km)
    ∧ (∀ kmv rt2 prev2,
        aggiornaRimborso veicoli kmv none rt2 prev2 = .zeroText)
    ∧ (∀ kmv vv rt2 prev2,
        (if rt2 then parseFloatOr0 kmv * 2 else parseFloatOr0 kmv) ≤ 0 →
        aggiornaRimborso veicoli kmv vv rt2 prev2 = .zeroText) := by
  refine ⟨?_, ?_, ?_⟩
  · have hkm : (0:ℚ) < (if rt then k * 2 else k) := by
      cases rt <;> simp <;> linarith
    have hcond : ¬ (intTruthy (some vid) = false ∨ (if rt then k * 2 else k) ≤ 0) := by
      push_neg
      refine ⟨?_, by linarith⟩
      simp [intTruthy, hvid]
    simp only [aggiornaRimborso, parseFloatOr0, if_neg hcond, Option.getD_some, hfind]
    congr 1
    cases rt <;> simp
  · intro kmv rt2 prev2
    simp [aggiornaRimborso, intTruthy]
  · intro kmv vv rt2 prev2 h
    have : intTruthy vv = false ∨ (if rt2 then parseFloatOr0 kmv * 2 else parseFloatOr0 kmv) ≤ 0 :=
      Or.inr h
    simp only [aggiornaRimborso, if_pos this]

/-- Concrete instance of `aggiornaRimborso_estimate`: distance 100, rate
0.42 = 21/50, one-way gives 42.00; the same state with round-trip set gives
84.00 (checked via the third conjunct being inapplicable); hypotheses are
discharged at the concrete input. -/
theorem aggiornaRimborso_estimate_witness :
    (1 : Nat) ≠ 0 ∧ (0:ℚ) < 100 ∧
    aggiornaRimborso [⟨1, 21/50⟩] (some 100) (some 1) false .zeroText
      = .valuta 42 := by
  refine ⟨by decide, by norm_num, ?_⟩
  have h := (aggiornaRimborso_estimate [⟨1, 21/50⟩] 1 (by decide) ⟨1, 21/50⟩ rfl
      100 (by norm_num) false .zeroText).1
  refine h.trans ?_
  norm_num

/-! ## Trip form: create and edit submit handlers (`trasferte.js`) -/

/-- The form state read by the `form-trasferta` (and `form-edit-trasferta`)
submit handlers: text fields as strings, the distance as the `parseFloat`
of the km field, the vehicle as the `parseInt` of the select. -/
structure TrasfertaForm where
  data : String
  nome_partenza : String
  via_partenza : String
  citta_partenza : String
  cap_partenza : String
  paese_partenza : String
  nome_arrivo : String
  via_arrivo : String
  citta_arrivo : String
  cap_arrivo : String
  paese_arrivo : String
  chilometri : Option ℚ
  motivo : String
  veicolo_id : Option Nat
  note : String
  andata_ritorno : Bool
  deriving DecidableEq, Repr

inductive HttpMethod where
  | post
  | put
  deriving DecidableEq, Repr

/-- Outcome of a submit handler before the network: either blocked by a
`mostraToast(..., 'warning')` with no fetch, or a `fetchApi` request. -/
inductive FormSubmitResult where
  | blocked (msg : String)
  | request (m : HttpMethod) (payload : TrasfertaForm)
  deriving DecidableEq, Repr

/-- The `form-trasferta` submit handler of `trasferte.js`: the JS truthiness
check `!data.data || !data.via_partenza || ... || !data.chilometri ||
!data.motivo || !data.veicolo_id`, then the two 5-digit CAP regexes, then
the POST to `/api/trasferte`. -/
def formTrasfertaSubmit (d : TrasfertaForm) : FormSubmitResult :=
  if strTruthy d.data = false ∨ strTruthy d.via_partenza = false
      ∨ strTruthy d.citta_partenza = false ∨ strTruthy d.cap_partenza = false
      ∨ strTruthy d.via_arrivo = false ∨ strTruthy d.citta_arrivo = false
      ∨ strTruthy d.cap_arrivo = false ∨ floatTruthy d.chilometri = false
      ∨ strTruthy d.motivo = false ∨ intTruthy d.veicolo_id = false then
    .blocked "Compila tutti i campi obbligatori"
  else if isCap5 d.cap_partenza = false then
    .blocked "CAP partenza deve essere 5 cifre"
  else if isCap5 d.cap_arrivo = false then
    .blocked "CAP arrivo deve essere 5 cifre"
  else
    .request .post d

/-- The `form-edit-trasferta` submit handler of `trasferte.js`: it checks
only the two 5-digit CAP regexes, then issues the PUT to
`/api/trasferte/{id}`. -/
def formEditTrasfertaSubmit (d : TrasfertaForm) : FormSubmitResult :=
  if isCap5 d.cap_partenza = false then
    .blocked "CAP partenza deve essere 5 cifre"
  else if isCap5 d.cap_arrivo = false then
    .blocked "CAP arrivo deve essere 5 cifre"
  else
    .request .put d

/-- A create-form state that is valid in every respect except that the
distance field parses to the strictly negative number −5. -/
def negativeKmForm : TrasfertaForm :=
  { data := "2026-01-10", nome_partenza := "", via_partenza := "Via Roma 1"
    citta_partenza := "Milano", cap_partenza := "20100", paese_partenza := "Italia"
    nome_arrivo := "", via_arrivo := "Via Po 2", citta_arrivo := "Torino"
    cap_arrivo := "10100", paese_arrivo := "Italia", chilometri := some (-5)
    motivo := "Visita cliente", veicolo_id := some 1, note := ""
    andata_ritorno := false }

/-- C2 counterexample: a distance of −5 is not strictly positive, yet the
create submit handler does not block — it issues the POST.  The JS check
`!data.chilometri` only rejects `0` and `NaN`. -/
theorem formTrasfertaSubmit_negative_km_not_blocked :
    ¬ (0 < (-5 : ℚ)) ∧
    formTrasfertaSubmit negativeKmForm = .request .post negativeKmForm := by
  exact ⟨by norm_num, by decide⟩

/-- C2 (amended): the create submission is blocked with a warning and no
network request exactly when some required field is empty, the distance
parses to `0` or `NaN`, the vehicle is unselected, or a CAP is not exactly
5 digits — strictly negative distances are not blocked; `"1234"` fails the
CAP test and `"12345"` passes it. -/
theorem formTrasfertaSubmit_validation (d : TrasfertaForm) :
    (formTrasfertaSubmit d = .request .post d ↔
      (strTruthy d.data = true ∧ strTruthy d.via_partenza = true
        ∧ strTruthy d.citta_partenza = true ∧ strTruthy d.cap_partenza = true
        ∧ strTruthy d.via_arrivo = true ∧ strTruthy d.citta_arrivo = true
        ∧ strTruthy d.cap_arrivo = true ∧ floatTruthy d.chilometri = true
        ∧ strTruthy d.motivo = true ∧ intTruthy d.veicolo_id = true
        ∧ isCap5 d.cap_partenza = true ∧ isCap5 d.cap_arrivo = true))
    ∧ ((strTruthy d.data = false ∨ strTruthy d.via_partenza = false
        ∨ strTruthy d.citta_partenza = false ∨ strTruthy d.cap_partenza = false
        ∨ strTruthy d.via_arrivo = false ∨ strTruthy d.citta_arrivo = false
        ∨ strTruthy d.cap_arrivo = false ∨ floatTruthy d.chilometri = false
        ∨ strTruthy d.motivo = false ∨ intTruthy d.veicolo_id = false
        ∨ isCap5 d.cap_partenza = false ∨ isCap5 d.cap_arrivo = false) →
        ∃ msg, formTrasfertaSubmit d = .blocked msg)
    ∧ isCap5 "1234" = false ∧ isCap5 "12345" = true := by
  refine ⟨?_, ?_, by decide, by decide⟩
  · unfold formTrasfertaSubmit
    split_ifs with h1 h2 h3
    · refine iff_of_false (by simp) ?_
      rintro ⟨ha, hb, hc, hd2, he, hf, hg, hh, hi, hj, hk, hl⟩
      rcases h1 with h | h | h | h | h | h | h | h | h | h <;> simp_all
    · refine iff_of_false (by simp) ?_
      rintro ⟨ha, hb, hc, hd2, he, hf, hg, hh, hi, hj, hk, hl⟩
      simp_all
    · refine iff_of_false (by simp) ?_
      rintro ⟨ha, hb, hc, hd2, he, hf, hg, hh, hi, hj, hk, hl⟩
      simp_all
    · simp only [not_or, Bool.not_eq_false] at h1 h2 h3
      obtain ⟨ha, hb, hc, hd2, he, hf, hg, hh, hi, hj⟩ := h1
      exact iff_of_true rfl ⟨ha, hb, hc, hd2, he, hf, hg, hh, hi, hj, h2, h3⟩
  · intro hbad
    unfold formTrasfertaSubmit
    split_ifs with h1 h2 h3
    · exact ⟨_, rfl⟩
    · exact ⟨_, rfl⟩
    · exact ⟨_, rfl⟩
    · exfalso
      simp only [not_or, Bool.not_eq_false] at h1
      obtain ⟨ha, hb, hc, hd2, he, hf, hg, hh, hi, hj⟩ := h1
      simp only [Bool.not_eq_false] at h2 h3
      rcases hbad with h | h | h | h | h | h | h | h | h | h | h | h <;>
        simp_all

/-- Instances of `formTrasfertaSubmit_validation`: a fully valid form (CAP
`"12345"`/`"20100"`) is submitted via POST, and the same form with the
departure CAP `"1234"` is blocked before any network call. -/
theorem formTrasfertaSubmit_validation_witness :
    formTrasfertaSubmit { negativeKmForm with chilometri := some 100, cap_partenza := "12345" }
      = .request .post { negativeKmForm with chilometri := some 100, cap_partenza := "12345" }
    ∧ ∃ msg, formTrasfertaSubmit { negativeKmForm with chilometri := some 100, cap_partenza := "1234" }
      = .blocked msg := by
  constructor
  · exact (formTrasfertaSubmit_validation _).1.mpr (by decide)
  · exact (formTrasfertaSubmit_validation _).2.1 (by decide)

/-- An address sub-object of a trip record (`partenza` / `arrivo`). -/
structure Indirizzo where
  nome : String
  via : String
  citta : String
  cap : String
  paese : String
  deriving DecidableEq, Repr

/-- A trip record as fetched from `GET /api/trasferte/{id}`. -/
structure TrasfertaRecord where
  id : Nat
  data : String
  partenza : Option Indirizzo
  arrivo : Option Indirizzo
  chilometri : ℚ
  motivo : String
  veicolo_id : Nat
  note : Option String
  andata_ritorno : Option Bool
  ha_allegato : Bool
  deriving DecidableEq, Repr

/-- `apriFIenModificaTrasferta` of `trasferte.js`: pre-populates the edit
form from the fetched record, with `''` fallbacks when an address
sub-object is missing (`'Italia'` for the country) and
`trasferta.andata_ritorno || false` for the round-trip flag. -/
def popolaFormEdit (t : TrasfertaRecord) : TrasfertaForm :=
  { data := t.data
    nome_partenza := (t.partenza.map Indirizzo.nome).getD ""
    via_partenza := (t.partenza.map Indirizzo.via).getD ""
    citta_partenza := (t.partenza.map Indirizzo.citta).getD ""
    cap_partenza := (t.partenza.map Indirizzo.cap).getD ""
    paese_partenza := (t.partenza.map Indirizzo.paese).getD "Italia"
    nome_arrivo := (t.arrivo.map Indirizzo.nome).getD ""
    via_arrivo := (t.arrivo.map Indirizzo.via).getD ""
    citta_arrivo := (t.arrivo.map Indirizzo.citta).getD ""
    cap_arrivo := (t.arrivo.map Indirizzo.cap).getD ""
    paese_arrivo := (t.arrivo.map Indirizzo.paese).getD "Italia"
    chilometri := some t.chilometri
    motivo := t.motivo
    veicolo_id := some t.veicolo_id
    note := t.note.getD ""
    andata_ritorno := t.andata_ritorno.getD false }

/-- C9 counterexample: a form with an empty reason and valid CAPs.  The
create handler blocks it, the edit handler submits it via PUT — so the edit
flow does not apply the create flow's validation rules. -/
theorem editSubmit_not_same_validation_as_create :
    (∃ msg, formTrasfertaSubmit { negativeKmForm with chilometri := some 10, motivo := "" }
        = .blocked msg)
    ∧ formEditTrasfertaSubmit { negativeKmForm with chilometri := some 10, motivo := "" }
        = .request .put { negativeKmForm with chilometri := some 10, motivo := "" } := by
  exact ⟨⟨"Compila tutti i campi obbligatori", by decide⟩, by decide⟩

/-- C9 (amended): the edit flow pre-populates every field from the fetched
record and submits via PUT instead of POST, but it validates only the two
postal codes (exactly 5 digits each); the create flow's required-field and
distance checks are not applied on edit. -/
theorem editSubmit_mirror (d : TrasfertaForm) (t : TrasfertaRecord)
    (p q : Indirizzo) (hp : t.partenza = some p) (hq : t.arrivo = some q) :
    (formEditTrasfertaSubmit d = .request .put d ↔
      (isCap5 d.cap_partenza = true ∧ isCap5 d.cap_arrivo = true))
    ∧ ((isCap5 d.cap_partenza = false ∨ isCap5 d.cap_arrivo = false) →
        ∃ msg, formEditTrasfertaSubmit d = .blocked msg)
    ∧ popolaFormEdit t =
      { data := t.data, nome_partenza := p.nome, via_partenza := p.via
        citta_partenza := p.citta, cap_partenza := p.cap, paese_partenza := p.paese
        nome_arrivo := q.nome, via_arrivo := q.via, citta_arrivo := q.citta
        cap_arrivo := q.cap, paese_arrivo := q.paese
        chilometri := some t.chilometri, motivo := t.motivo
        veicolo_id := some t.veicolo_id, note := t.note.getD ""
        andata_ritorno := t.andata_ritorno.getD false } := by
  refine ⟨?_, ?_, ?_⟩
  · unfold formEditTrasfertaSubmit
    split_ifs with h1 h2
    · refine iff_of_false (by simp) ?_
      rintro ⟨ha, hb⟩
      simp_all
    · refine iff_of_false (by simp) ?_
      rintro ⟨ha, hb⟩
      simp_all
    · simp only [Bool.not_eq_false] at h1 h2
      exact iff_of_true rfl ⟨h1, h2⟩
  · intro hbad
    unfold formEditTrasfertaSubmit
    split_ifs with h1 h2
    · exact ⟨_, rfl⟩
    · exact ⟨_, rfl⟩
    · exfalso
      simp only [Bool.not_eq_false] at h1 h2
      rcases hbad with h | h <;> simp_all
  · simp [popolaFormEdit, hp, hq]

/-- Instance of `editSubmit_mirror` at a concrete record with both address
sub-objects present and a concrete valid edit form. -/
theorem editSubmit_mirror_witness :
    formEditTrasfertaSubmit negativeKmForm = .request .put negativeKmForm ∧
    popolaFormEdit
      { id := 7, data := "2026-01-10"
        partenza := some ⟨"Sede", "Via Roma 1", "Milano", "20100", "Italia"⟩
        arrivo := some ⟨"Cliente", "Via Po 2", "Torino", "10100", "Italia"⟩
        chilometri := 100, motivo := "Visita cliente", veicolo_id := 1
        note := none, andata_ritorno := none, ha_allegato := false }
      = { negativeKmForm with
          nome_partenza := "Sede", nome_arrivo := "Cliente", chilometri := some 100 } := by
  have h := editSubmit_mirror negativeKmForm
      { id := 7, data := "2026-01-10"
        partenza := some ⟨"Sede", "Via Roma 1", "Milano", "20100", "Italia"⟩
        arrivo := some ⟨"Cliente", "Via Po 2", "Torino", "10100", "Italia"⟩
        chilometri := 100, motivo := "Visita cliente", veicolo_id := 1
        note := none, andata_ritorno := none, ha_allegato := false }
      ⟨"Sede", "Via Roma 1", "Milano", "20100", "Italia"⟩
      ⟨"Cliente", "Via Po 2", "Torino", "10100", "Italia"⟩ rfl rfl
  refine ⟨h.1.mpr (by decide), h.2.2.trans (by decide)⟩

/-! ## Trip form: attachment handling (`trasferte.js`) -/

/-- The `tipo` argument of `mostraToast`. -/
inductive ToastTipo where
  | info
  | success
  | warning
  | error
  deriving DecidableEq, Repr

/-- A selected file: name and size in bytes. -/
structure FileSel where
  name : String
  size : Nat
  deriving DecidableEq, Repr

/-- State written by the `trasferta-allegato` change handler: the file left
in the input, whether the preview is shown, and the toast emitted. -/
structure AllegatoState where
  inputFile : Option FileSel
  previewShown : Bool
  toast : Option ToastTipo
  deriving DecidableEq, Repr

/-- The `trasferta-allegato` change handler of `trasferte.js`: a file
strictly larger than `10 * 1024 * 1024` bytes is rejected on the spot —
error toast, input cleared, preview hidden — before any upload request;
otherwise the preview is shown. -/
def allegatoChange (file : Option FileSel) : AllegatoState :=
  match file with
  | none => { inputFile := none, previewShown := false, toast := none }
  | some f =>
    if f.size > 10 * 1024 * 1024 then
      { inputFile := none, previewShown := false, toast := some .error }
    else
      { inputFile := some f, previewShown := true, toast := none }

/-- A network request issued by the create-submit flow. -/
inductive TrasfertaReq where
  | createPost (payload : TrasfertaForm)
  | uploadAllegato (trasfertaId : Nat) (file : FileSel)
  deriving DecidableEq, Repr

/-- Observable outcome of one run of the `form-trasferta` submit handler. -/
structure SubmitTrace where
  requests : List TrasfertaReq
  toasts : List ToastTipo
  savedTrip : Option Nat
  deriving DecidableEq, Repr

/-- The `form-trasferta` submit handler of `trasferte.js` including the
attachment phase: after validation, POST the trip; only if the POST
succeeds and a file is selected, issue the separate upload request; an
upload failure is caught (`caricaAllegatoTrasferta` shows an error toast
and rethrows, the handler catches and warns) and the created trip is never
rolled back. -/
def formTrasfertaSubmitFlow (d : TrasfertaForm) (file : Option FileSel)
    (createOutcome : Except Unit Nat) (uploadOutcome : Except Unit Unit) :
    SubmitTrace :=
  match formTrasfertaSubmit d with
  | .blocked _ => { requests := [], toasts := [.warning], savedTrip := none }
  | .request _ payload =>
    match createOutcome with
    | .error _ =>
        { requests := [.createPost payload], toasts := [.error], savedTrip := none }
    | .ok tid =>
      match file with
      | none =>
          { requests := [.createPost payload], toasts := [.success]
            savedTrip := some tid }
      | some f =>
        match uploadOutcome with
        | .ok _ =>
            { requests := [.createPost payload, .uploadAllegato tid f]
              toasts := [.success, .success], savedTrip := some tid }
        | .error _ =>
            { requests := [.createPost payload, .uploadAllegato tid f]
              toasts := [.success, .error, .warning], savedTrip := some tid }

/-- C8: files above 10 MB are rejected client-side before any upload; the
attachment upload is a separate request issued only when the trip POST
succeeded; and a failed upload leaves the created trip saved, degrading to
a warning toast with no rollback request. -/
theorem allegato_handling (d : TrasfertaForm)
    (hvalid : formTrasfertaSubmit d = .request .post d)
    (file : Option FileSel) (c : Except Unit Nat) (u : Except Unit Unit) :
    (∀ f : FileSel, 10 * 1024 * 1024 < f.size →
      allegatoChange (some f)
        = { inputFile := none, previewShown := false, toast := some .error })
    ∧ (∀ i fl, TrasfertaReq.uploadAllegato i fl
          ∈ (formTrasfertaSubmitFlow d file c u).requests →
        c = .ok i ∧ file = some fl)
    ∧ (∀ i fl, c = .ok i → file = some fl → u = .error () →
        (formTrasfertaSubmitFlow d file c u).savedTrip = some i
        ∧ ToastTipo.warning ∈ (formTrasfertaSubmitFlow d file c u).toasts
        ∧ (formTrasfertaSubmitFlow d file c u).requests
            = [.createPost d, .uploadAllegato i fl]) := by
  refine ⟨?_, ?_, ?_⟩
  · intro f hf
    simp [allegatoChange, if_pos hf]
  · intro i fl hmem
    rw [formTrasfertaSubmitFlow, hvalid] at hmem
    rcases c with _ | tid
    · simp at hmem
    · rcases file with _ | f
      · simp at hmem
      · rcases u with _ | _ <;> simp at hmem <;>
          obtain ⟨h1, h2⟩ := hmem <;> exact ⟨by rw [h1], by rw [h2]⟩
  · intro i fl hc hfile hu
    subst hc hfile hu
    rw [formTrasfertaSubmitFlow, hvalid]
    refine ⟨rfl, ?_, rfl⟩
    simp

/-- Instance of `allegato_handling`: an 11 MB file is rejected, and with a
valid form, a created trip id 3 and a failing upload, the trip stays saved
with a warning and exactly the two requests. -/
theorem allegato_handling_witness :
    formTrasfertaSubmit { negativeKmForm with chilometri := some 100 }
      = .request .post { negativeKmForm with chilometri := some 100 }
    ∧ allegatoChange (some ⟨"doc.pdf", 11534336⟩)
      = { inputFile := none, previewShown := false, toast := some .error }
    ∧ (formTrasfertaSubmitFlow { negativeKmForm with chilometri := some 100 }
        (some ⟨"doc.pdf", 1024⟩) (.ok 3) (.error ())).savedTrip = some 3 := by
  have hv : formTrasfertaSubmit { negativeKmForm with chilometri := some 100 }
      = .request .post { negativeKmForm with chilometri := some 100 } := by decide
  have h := allegato_handling _ hv (some ⟨"doc.pdf", 1024⟩) (.ok 3) (.error ())
  exact ⟨hv, h.1 ⟨"doc.pdf", 11534336⟩ (by norm_num),
    (h.2.2 3 ⟨"doc.pdf", 1024⟩ rfl rfl rfl).1⟩

/-! ## Archive page: selection set, filters, exports (`archivio.js`) -/

/-- A trip row of the archive list.  `anno`/`mese` carry the values the
code computes as `new Date(t.data).getFullYear()` / `.getMonth()`. -/
structure ArchRow where
  id : Nat
  anno : Nat
  mese : Nat
  ha_allegato : Bool
  deriving DecidableEq, Repr

/-- The set of ids of the rendered rows. -/
def rowIds (rows : List ArchRow) : Finset Nat := (rows.map ArchRow.id).toFinset

/-- Module-level state of `archivio.js` plus the DOM pieces the handlers
touch: the master list, the filtered list, the rendered rows and their
checkboxes, the `cb-select-all` checkbox, the selection set and the
selection counter (`none` while the empty-state is shown). -/
structure ArchState where
  allTrasferte : List ArchRow
  filteredTrasferte : List ArchRow
  rows : List ArchRow
  checked : Finset Nat
  cbSelectAll : Bool
  selectedTrasferte : Finset Nat
  counterText : Option Nat
  deriving DecidableEq

/-- `visualizzaTutteLeTrasferte` of `archivio.js`: store the filtered list;
an empty list renders the empty-state (no table, no checkboxes); otherwise
the table is rebuilt with a fresh unchecked `cb-select-all`,
`setupCheckboxListeners` restores the checkboxes of still-rendered selected
trips, and `aggiornaContatore` writes the selection-set size. -/
def visualizzaTutteLeTrasferte (s : ArchState) (lista : List ArchRow) :
    ArchState :=
  if lista.isEmpty then
    { s with filteredTrasferte := lista, rows := [], checked := ∅
             cbSelectAll := false, counterText := none }
  else
    { s with filteredTrasferte := lista, rows := lista
             checked := rowIds lista ∩ s.selectedTrasferte
             cbSelectAll := false
             counterText := some s.selectedTrasferte.card }

/-- The per-row checkbox change handler: update the selection set, refresh
the counter, and set `cb-select-all` to whether the selection size equals
the rendered row count. -/
def rowChange (s : ArchState) (id : Nat) (b : Bool) : ArchState :=
  let selected :=
    if b then insert id s.selectedTrasferte else s.selectedTrasferte.erase id
  { s with
    checked := if b then insert id s.checked else s.checked.erase id
    selectedTrasferte := selected
    counterText := some selected.card
    cbSelectAll := selected.card == s.rows.length }

/-- The `cb-select-all` change handler: every rendered row checkbox takes
the new value and every rendered id is added to (or removed from) the
selection set; the counter is refreshed. -/
def selectAllChange (s : ArchState) (b : Bool) : ArchState :=
  let selected :=
    if b then s.selectedTrasferte ∪ rowIds s.rows
    else s.selectedTrasferte \ rowIds s.rows
  { s with
    cbSelectAll := b
    checked := if b then rowIds s.rows else ∅
    selectedTrasferte := selected
    counterText := some selected.card }

/-- The year/month filtering inside `applicaFiltri`: `if (anno)` is a JS
truthiness test, `mese !== null` keeps month 0 (January) filterable. -/
def filtroAnnoMese (all : List ArchRow) (anno mese : Option Nat) :
    List ArchRow :=
  let l1 :=
    if intTruthy anno then
      all.filter (fun t => t.anno == anno.getD 0)
    else all
  match mese with
  | none => l1
  | some m => l1.filter (fun t => t.mese == m)

/-- `applicaFiltri` of `archivio.js`: client-side year/month filtering of
the in-memory master list followed by a re-render; the selection set is
not touched. -/
def applicaFiltri (s : ArchState) (anno mese : Option Nat) : ArchState :=
  visualizzaTutteLeTrasferte s (filtroAnnoMese s.allTrasferte anno mese)

/-- A user event on the rendered archive table. -/
inductive ArchEvent where
  | row (id : Nat) (b : Bool)
  | all (b : Bool)
  deriving DecidableEq, Repr

def archStep (s : ArchState) : ArchEvent → ArchState
  | .row id b => rowChange s id b
  | .all b => selectAllChange s b

def archRun (s : ArchState) (es : List ArchEvent) : ArchState :=
  es.foldl archStep s

/-- An event is valid when its row checkbox actually exists in the table. -/
def eventValid (rows : List ArchRow) : ArchEvent → Prop
  | .row id _ => id ∈ rows.map ArchRow.id
  | .all _ => True

/-- Invariant tied to one render: the rendered rows are fixed, the selection
set stays within them, and `cb-select-all` is checked exactly when the
selection size equals the rendered row count. -/
def selInvariant (lista : List ArchRow) (s : ArchState) : Prop :=
  s.rows = lista ∧ s.selectedTrasferte ⊆ rowIds lista
    ∧ s.cbSelectAll = (s.selectedTrasferte.card == lista.length)

theorem rowIds_card_of_nodup {lista : List ArchRow}
    (hnd : (lista.map ArchRow.id).Nodup) :
    (rowIds lista).card = lista.length := by
  rw [rowIds, List.toFinset_card_of_nodup hnd, List.length_map]

theorem selInvariant_step {lista : List ArchRow} (hne : lista ≠ [])
    (hnd : (lista.map ArchRow.id).Nodup) {s : ArchState}
    (hs : selInvariant lista s) (e : ArchEvent) (he : eventValid lista e) :
    selInvariant lista (archStep s e) := by
  obtain ⟨hrows, hsub, _⟩ := hs
  cases e with
  | row id b =>
    have hid : id ∈ rowIds lista := by
      rw [rowIds]
      exact List.mem_toFinset.mpr he
    refine ⟨hrows, ?_, by simp [archStep, rowChange, hrows]⟩
    cases b with
    | true =>
      simpa [archStep, rowChange] using Finset.insert_subset hid hsub
    | false =>
      simpa [archStep, rowChange] using (Finset.erase_subset _ _).trans hsub
  | all b =>
    cases b with
    | true =>
      refine ⟨hrows, ?_, ?_⟩
      · simpa [archStep, selectAllChange, hrows] using
          Finset.union_subset hsub (le_refl (rowIds lista))
      · have hcard : (s.selectedTrasferte ∪ rowIds lista).card = lista.length := by
          rw [Finset.union_eq_right.mpr hsub, rowIds_card_of_nodup hnd]
        simp [archStep, selectAllChange, hrows, hcard]
    | false =>
      refine ⟨hrows, ?_, ?_⟩
      · simpa [archStep, selectAllChange, hrows] using
          (Finset.sdiff_subset (s := s.selectedTrasferte) (t := rowIds lista)).trans hsub
      · have hempty : s.selectedTrasferte \ rowIds lista = ∅ :=
          Finset.sdiff_eq_empty_iff_subset.mpr hsub
        have hlen : lista.length ≠ 0 := by
          simpa [List.length_eq_zero] using hne
        simp only [archStep, selectAllChange, hrows, if_neg (by simp : ¬False)]
        simp [hempty]
        exact fun h => hlen h.symm

theorem selInvariant_run {lista : List ArchRow} (hne : lista ≠ [])
    (hnd : (lista.map ArchRow.id).Nodup) {s : ArchState}
    (hs : selInvariant lista s) (es : List ArchEvent)
    (hval : ∀ e ∈ es, eventValid lista e) :
    selInvariant lista (archRun s es) := by
  induction es generalizing s with
  | nil => exact hs
  | cons e es ih =>
    have h1 : eventValid lista e := hval e (List.mem_cons_self e es)
    exact ih (selInvariant_step hne hnd hs e h1)
      (fun e2 he2 => hval e2 (List.mem_cons_of_mem e he2))

/-- C6: starting from a fresh render of a non-empty list with an empty
selection, after any valid sequence of row toggles and select-all toggles
the `cb-select-all` checkbox is checked exactly when the selection-set size
equals the rendered row count; toggling select-all sets (or clears) every
row checkbox and adds (or removes) every rendered identifier. -/
theorem archivio_selectAll_invariant (s0 : ArchState)
    (hsel : s0.selectedTrasferte = ∅)
    (lista : List ArchRow) (hne : lista ≠ [])
    (hnd : (lista.map ArchRow.id).Nodup)
    (es : List ArchEvent) (hval : ∀ e ∈ es, eventValid lista e) :
    ((archRun (visualizzaTutteLeTrasferte s0 lista) es).cbSelectAll
      = ((archRun (visualizzaTutteLeTrasferte s0 lista) es).selectedTrasferte.card
          == lista.length))
    ∧ (∀ s : ArchState,
        (selectAllChange s true).checked = rowIds s.rows
        ∧ (selectAllChange s true).selectedTrasferte
            = s.selectedTrasferte ∪ rowIds s.rows
        ∧ (selectAllChange s false).checked = ∅
        ∧ (selectAllChange s false).selectedTrasferte
            = s.selectedTrasferte \ rowIds s.rows) := by
  constructor
  · have hemp : lista.isEmpty = false := by
      simpa [List.isEmpty_iff] using hne
    have hlen : lista.length ≠ 0 := by
      simpa [List.length_eq_zero] using hne
    have hinit : selInvariant lista (visualizzaTutteLeTrasferte s0 lista) := by
      refine ⟨?_, ?_, ?_⟩
      · simp [visualizzaTutteLeTrasferte, hemp]
      · simp [visualizzaTutteLeTrasferte, hemp, hsel]
      · rw [visualizzaTutteLeTrasferte, if_neg (by simp [hemp])]
        simp only [hsel, Finset.card_empty]
        symm
        rw [beq_eq_false_iff_ne]
        exact fun h => hlen h.symm
    exact (selInvariant_run hne hnd hinit es hval).2.2
  · intro s
    refine ⟨by simp [selectAllChange], by simp [selectAllChange],
      by simp [selectAllChange], by simp [selectAllChange]⟩

/-- Instance of `archivio_selectAll_invariant` with 7 rendered rows:
select-all then deselecting row 3 leaves a selection of size 6 and the
select-all checkbox unchecked. -/
theorem archivio_selectAll_invariant_witness :
    (archRun
      (visualizzaTutteLeTrasferte
        { allTrasferte := [], filteredTrasferte := [], rows := []
          checked := ∅, cbSelectAll := false, selectedTrasferte := ∅
          counterText := none }
        ((List.range 7).map (fun i => ⟨i + 1, 2026, 0, false⟩)))
      [.all true, .row 3 false]).selectedTrasferte.card = 6
    ∧ (archRun
      (visualizzaTutteLeTrasferte
        { allTrasferte := [], filteredTrasferte := [], rows := []
          checked := ∅, cbSelectAll := false, selectedTrasferte := ∅
          counterText := none }
        ((List.range 7).map (fun i => ⟨i + 1, 2026, 0, false⟩)))
      [.all true, .row 3 false]).cbSelectAll = false := by
  have h := archivio_selectAll_invariant
      { allTrasferte := [], filteredTrasferte := [], rows := []
        checked := ∅, cbSelectAll := false, selectedTrasferte := ∅
        counterText := none }
      rfl
      ((List.range 7).map (fun i => ⟨i + 1, 2026, 0, false⟩))
      (by decide) (by decide)
      [.all true, .row 3 false]
      (by
        intro e he
        rcases List.mem_cons.mp he with rfl | he2
        · trivial
        · rcases List.mem_cons.mp he2 with rfl | he3
          · show (3 : Nat) ∈ _
            decide
          · cases he3)
  have hcard : (archRun
      (visualizzaTutteLeTrasferte
        { allTrasferte := [], filteredTrasferte := [], rows := []
          checked := ∅, cbSelectAll := false, selectedTrasferte := ∅
          counterText := none }
        ((List.range 7).map (fun i => ⟨i + 1, 2026, 0, false⟩)))
      [.all true, .row 3 false]).selectedTrasferte.card = 6 := by decide
  refine ⟨hcard, ?_⟩
  rw [h.1, hcard]
  decide

/-! ## Archive page: export actions (`archivio.js`) -/

inductive ExportEndpoint where
  | esportaExcel
  | esportaPdf
  | allegatiZip
  deriving DecidableEq, Repr

/-- Outcome of an export button click: a warning toast with no fetch, or a
POST carrying `trasferta_ids` whose successful response is downloaded. -/
inductive ExportAction where
  | warnToast
  | request (endpoint : ExportEndpoint) (trasferta_ids : List Nat)
  deriving DecidableEq, Repr

/-- `esportaSelezionate` of `archivio.js`: an empty list warns and issues
no request; otherwise it POSTs the ids of the given trips. -/
def esportaSelezionate (trasferte : List ArchRow) (endpoint : ExportEndpoint) :
    ExportAction :=
  if trasferte.isEmpty then .warnToast
  else .request endpoint (trasferte.map ArchRow.id)

/-- The `btn-export-selezionati-excel` / `btn-export-selezionati-pdf` click
handlers: an empty selection warns; otherwise the selection is intersected
with `filteredTrasferte` and handed to `esportaSelezionate`. -/
def exportSelezionatiClick (selected : Finset Nat) (filtered : List ArchRow)
    (endpoint : ExportEndpoint) : ExportAction :=
  if selected.card = 0 then .warnToast
  else
    esportaSelezionate (filtered.filter (fun t => decide (t.id ∈ selected)))
      endpoint

/-- `scaricaAllegatiZip` of `archivio.js`: keep only ids whose trip is
currently in `filteredTrasferte` and has an attachment; an empty remainder
warns, otherwise the ZIP download request is issued. -/
def scaricaAllegatiZip (traferteIds : List Nat) (filtered : List ArchRow) :
    ExportAction :=
  let conAllegati := traferteIds.filter (fun id =>
    match filtered.find? (fun t => t.id == id) with
    | some t => t.ha_allegato
    | none => false)
  if conAllegati.isEmpty then .warnToast
  else .request .allegatiZip conAllegati

/-- The `btn-download-allegati-zip` click handler.  `selectedArr` is
`Array.from(selectedTrasferte)`: the selection set enumerated in its
iteration order, so `selectedTrasferte.size === 0` is the emptiness of the
array. -/
def downloadAllegatiZipClick (selectedArr : List Nat) (filtered : List ArchRow) :
    ExportAction :=
  if selectedArr.length = 0 then .warnToast
  else scaricaAllegatiZip selectedArr filtered

/-- C7 counterexample: the selection holds the id 99, which is not among
the rendered rows, so the Excel export issues no request at all — it warns
— although the selection is non-empty. -/
theorem export_nonempty_selection_no_request :
    ({99} : Finset Nat).card ≠ 0 ∧
    exportSelezionatiClick {99} [⟨1, 2026, 0, true⟩] .esportaExcel
      = .warnToast := by
  exact ⟨by decide, by decide⟩

/-- C7 (amended): a bulk export with an empty selection warns and issues no
HTTP request; with a non-empty selection, the ids sent are those of the
selected trips among the currently rendered rows — for the attachments ZIP
further restricted to trips with an attachment — and when no selected trip
qualifies a warning is shown instead of a request. -/
theorem export_actions (selected : Finset Nat) (selectedArr : List Nat)
    (filtered : List ArchRow) :
    (selected.card = 0 →
      ∀ ep, exportSelezionatiClick selected filtered ep = .warnToast)
    ∧ (selectedArr = [] → downloadAllegatiZipClick selectedArr filtered = .warnToast)
    ∧ (selected.card ≠ 0 → ∀ ep,
        (filtered.filter (fun t => decide (t.id ∈ selected)) = [] →
          exportSelezionatiClick selected filtered ep = .warnToast)
        ∧ (filtered.filter (fun t => decide (t.id ∈ selected)) ≠ [] →
          exportSelezionatiClick selected filtered ep
            = .request ep
                ((filtered.filter (fun t => decide (t.id ∈ selected))).map
                  ArchRow.id)))
    ∧ (selectedArr ≠ [] →
        (selectedArr.filter (fun id =>
            match filtered.find? (fun t => t.id == id) with
            | some t => t.ha_allegato
            | none => false) = [] →
          downloadAllegatiZipClick selectedArr filtered = .warnToast)
        ∧ (selectedArr.filter (fun id =>
            match filtered.find? (fun t => t.id == id) with
            | some t => t.ha_allegato
            | none => false) ≠ [] →
          downloadAllegatiZipClick selectedArr filtered
            = .request .allegatiZip
                (selectedArr.filter (fun id =>
                  match filtered.find? (fun t => t.id == id) with
                  | some t => t.ha_allegato
                  | none => false)))) := by
  refine ⟨?_, ?_, ?_, ?_⟩
  · intro h0 ep
    simp [exportSelezionatiClick, h0]
  · intro h0
    simp [downloadAllegatiZipClick, h0]
  · intro h0 ep
    constructor
    · intro hempty
      simp [exportSelezionatiClick, h0, esportaSelezionate, hempty]
    · intro hnon
      rw [exportSelezionatiClick, if_neg h0, esportaSelezionate,
        if_neg (by simpa [List.isEmpty_iff] using hnon)]
  · intro h0
    have hlen : selectedArr.length ≠ 0 := by
      simpa [List.length_eq_zero] using h0
    constructor
    · intro hempty
      rw [downloadAllegatiZipClick, if_neg hlen, scaricaAllegatiZip]
      simp [hempty]
    · intro hnon
      rw [downloadAllegatiZipClick, if_neg hlen, scaricaAllegatiZip]
      simp only [List.isEmpty_iff]
      rw [if_neg hnon]

/-- Instances of `export_actions`: the empty selection warns everywhere;
the selection {1, 2} over a single rendered row 1 with an attachment sends
exactly [1] for both the Excel export and the attachments ZIP. -/
theorem export_actions_witness :
    exportSelezionatiClick ∅ [⟨1, 2026, 0, true⟩] .esportaExcel = .warnToast
    ∧ downloadAllegatiZipClick [] [⟨1, 2026, 0, true⟩] = .warnToast
    ∧ exportSelezionatiClick {1, 2} [⟨1, 2026, 0, true⟩] .esportaExcel
        = .request .esportaExcel [1]
    ∧ downloadAllegatiZipClick [1, 2] [⟨1, 2026, 0, true⟩]
        = .request .allegatiZip [1] := by
  refine ⟨(export_actions ∅ [] [⟨1, 2026, 0, true⟩]).1 (by decide) .esportaExcel,
    (export_actions ∅ [] [⟨1, 2026, 0, true⟩]).2.1 rfl, ?_, ?_⟩
  · have h := ((export_actions {1, 2} [] [⟨1, 2026, 0, true⟩]).2.2.1
      (by decide) .esportaExcel).2 (by decide)
    exact h.trans (by decide)
  · have h := ((export_actions ∅ [1, 2] [⟨1, 2026, 0, true⟩]).2.2.2
      (by decide)).2 (by decide)
    exact h.trans (by decide)

/-- C10: applying the year/month quick-filters never removes identifiers
from the selection set: the set is preserved across the re-render, the
restore step re-checks exactly the still-rendered selected trips, the
counter shows the size of the whole set (stale identifiers included), and
the subsequent select-all comparison uses that same full size against the
rendered row count. -/
theorem applicaFiltri_preserves_selection (s : ArchState)
    (anno mese : Option Nat) :
    (applicaFiltri s anno mese).selectedTrasferte = s.selectedTrasferte
    ∧ ((applicaFiltri s anno mese).rows ≠ [] →
        (applicaFiltri s anno mese).checked
          = rowIds (applicaFiltri s anno mese).rows ∩ s.selectedTrasferte
        ∧ (applicaFiltri s anno mese).counterText
          = some s.selectedTrasferte.card)
    ∧ (∀ id b, (rowChange (applicaFiltri s anno mese) id b).cbSelectAll
        = ((rowChange (applicaFiltri s anno mese) id b).selectedTrasferte.card
            == (applicaFiltri s anno mese).rows.length)) := by
  refine ⟨?_, ?_, ?_⟩
  · rw [applicaFiltri, visualizzaTutteLeTrasferte]
    split_ifs <;> rfl
  · intro hne
    rw [applicaFiltri, visualizzaTutteLeTrasferte]
    by_cases h : (filtroAnnoMese s.allTrasferte anno mese).isEmpty
    · exfalso
      apply hne
      rw [applicaFiltri, visualizzaTutteLeTrasferte, if_pos h]
    · rw [if_neg h]
      exact ⟨rfl, rfl⟩
  · intro id b
    rfl

/-- Instance of `applicaFiltri_preserves_selection`: with selection {5, 7}
and a year filter rendering only trip 1, the selection survives intact, no
checkbox is restored, and the counter still shows 2 against a single
rendered row. -/
theorem applicaFiltri_preserves_selection_witness :
    (applicaFiltri
        { allTrasferte := [⟨1, 2025, 0, false⟩, ⟨5, 2024, 3, false⟩]
          filteredTrasferte := [], rows := [], checked := ∅
          cbSelectAll := false, selectedTrasferte := {5, 7}
          counterText := none } (some 2025) none).selectedTrasferte
      = {5, 7}
    ∧ (applicaFiltri
        { allTrasferte := [⟨1, 2025, 0, false⟩, ⟨5, 2024, 3, false⟩]
          filteredTrasferte := [], rows := [], checked := ∅
          cbSelectAll := false, selectedTrasferte := {5, 7}
          counterText := none } (some 2025) none).counterText = some 2
    ∧ (applicaFiltri
        { allTrasferte := [⟨1, 2025, 0, false⟩, ⟨5, 2024, 3, false⟩]
          filteredTrasferte := [], rows := [], checked := ∅
          cbSelectAll := false, selectedTrasferte := {5, 7}
          counterText := none } (some 2025) none).rows.length = 1 := by
  have h := applicaFiltri_preserves_selection
      { allTrasferte := [⟨1, 2025, 0, false⟩, ⟨5, 2024, 3, false⟩]
        filteredTrasferte := [], rows := [], checked := ∅
        cbSelectAll := false, selectedTrasferte := {5, 7}
        counterText := none } (some 2025) none
  refine ⟨h.1, ?_, by decide⟩
  exact (h.2.1 (by decide)).2.trans (by decide)

/-! ## Geocoding client (`address-autocomplete.js`, `addressAutocompleteSearch`) -/

/-- `NOMINATIM_TIMEOUT` from `address-autocomplete.js` (milliseconds). -/
def NOMINATIM_TIMEOUT : Nat := 5000

/-- The `address` sub-object of a Nominatim result, kept for the later
form-field population. -/
structure AddrDetails where
  road : Option String
  street : Option String
  county : Option String
  city : Option String
  town : Option String
  village : Option String
  postcode : Option String
  country : Option String
  deriving DecidableEq, Repr

/-- A raw Nominatim result.  `lat`/`lon` carry the `parseFloat` of the
numeric strings (`none` for `NaN`). -/
structure RawResult where
  display_name : String
  address : Option AddrDetails
  lat : Option ℚ
  lon : Option ℚ
  type : Option String
  deriving DecidableEq, Repr

/-- The normalized suggestion produced by `addressAutocompleteSearch`. -/
structure AddressSuggestion where
  name : String
  address : Option AddrDetails
  lat : Option ℚ
  lon : Option ℚ
  type : String
  deriving DecidableEq, Repr

/-- One element of `results.map(r => ...)`: `r.type || 'address'` is a JS
truthiness fallback. -/
def normalizeResult (r : RawResult) : AddressSuggestion :=
  { name := r.display_name, address := r.address, lat := r.lat, lon := r.lon
    type := match r.type with
      | none => "address"
      | some t => if strTruthy t then t else "address" }

/-- The body the `await response.json()` step observes. -/
inductive ResponseBody where
  | invalidJson
  | jsonArray (results : List RawResult)
  | jsonOther
  deriving DecidableEq, Repr

/-- Outcome of the `fetch` round trip: the 5-second abort, any other
transport rejection, or a response with its ok-flag and body. -/
inductive FetchOutcome where
  | abortTimeout
  | networkError
  | response (ok : Bool) (body : ResponseBody)
  deriving DecidableEq, Repr

/-- A JS exception as seen by the `catch (error)` clause. -/
inductive JsError where
  | abortError
  | otherError
  deriving DecidableEq, Repr

/-- The `try` block of `addressAutocompleteSearch` after the guard: fetch
rejections and a failing `response.json()` throw; a non-ok status returns
`[]`; a non-array body returns `[]`; an array is normalized. -/
def addressAutocompleteSearchTry (outcome : FetchOutcome) :
    Except JsError (List AddressSuggestion) :=
  match outcome with
  | .abortTimeout => .error .abortError
  | .networkError => .error .otherError
  | .response ok body =>
    if ok = false then .ok []
    else
      match body with
      | .invalidJson => .error .otherError
      | .jsonOther => .ok []
      | .jsonArray rs => .ok (rs.map normalizeResult)

/-- `addressAutocompleteSearch` of `address-autocomplete.js`.  The result's
first component records whether the network call was issued; a `.error`
value would be an exception escaping to the caller — the `catch` clause
turns every exception into `(true, [])`. -/
def addressAutocompleteSearch (query : String) (outcome : FetchOutcome) :
    Except JsError (Bool × List AddressSuggestion) :=
  if strTruthy query = false ∨ query.data.length < 2 then .ok (false, [])
  else
    match addressAutocompleteSearchTry outcome with
    | .ok l => .ok (true, l)
    | .error _ => .ok (true, [])

/-- C4: the geocoding search never throws to its caller — every execution
produces an `ok` result — and on timeout abort, transport failure, non-ok
status, or a body that is not a well-formed array, the suggestion list is
empty; the client-side timeout is the fixed 5000 ms. -/
theorem addressAutocompleteSearch_never_fails (q : String) (o : FetchOutcome) :
    (∃ r, addressAutocompleteSearch q o = .ok r)
    ∧ NOMINATIM_TIMEOUT = 5000
    ∧ (o = .abortTimeout ∨ o = .networkError →
        ∃ b, addressAutocompleteSearch q o = .ok (b, []))
    ∧ (∀ body, o = .response false body →
        ∃ b, addressAutocompleteSearch q o = .ok (b, []))
    ∧ (o = .response true .invalidJson →
        ∃ b, addressAutocompleteSearch q o = .ok (b, []))
    ∧ (o = .response true .jsonOther →
        ∃ b, addressAutocompleteSearch q o = .ok (b, [])) := by
  by_cases hg : strTruthy q = false ∨ q.data.length < 2
  · refine ⟨⟨(false, []), by rw [addressAutocompleteSearch, if_pos hg]⟩, rfl,
      ?_, ?_, ?_, ?_⟩ <;>
      { intros; exact ⟨false, by rw [addressAutocompleteSearch, if_pos hg]⟩ }
  · have hrun : ∀ myo, addressAutocompleteSearchTry myo = .error .abortError ∨
        addressAutocompleteSearchTry myo = .error .otherError ∨
        ∃ l, addressAutocompleteSearchTry myo = .ok l := by
      intro myo
      rcases myo with _ | _ | ⟨ok, body⟩
      · exact Or.inl rfl
      · exact Or.inr (Or.inl rfl)
      · cases ok
        · exact Or.inr (Or.inr ⟨[], rfl⟩)
        · cases body
          · exact Or.inr (Or.inl rfl)
          · exact Or.inr (Or.inr ⟨_, rfl⟩)
          · exact Or.inr (Or.inr ⟨[], rfl⟩)
    refine ⟨?_, rfl, ?_, ?_, ?_, ?_⟩
    · rcases hrun o with h | h | ⟨l, h⟩
      · exact ⟨(true, []), by rw [addressAutocompleteSearch, if_neg hg, h]⟩
      · exact ⟨(true, []), by rw [addressAutocompleteSearch, if_neg hg, h]⟩
      · exact ⟨(true, l), by rw [addressAutocompleteSearch, if_neg hg, h]⟩
    · rintro (rfl | rfl) <;>
        exact ⟨true, by rw [addressAutocompleteSearch, if_neg hg]; rfl⟩
    · rintro body rfl
      exact ⟨true, by rw [addressAutocompleteSearch, if_neg hg]; rfl⟩
    · rintro rfl
      exact ⟨true, by rw [addressAutocompleteSearch, if_neg hg]; rfl⟩
    · rintro rfl
      exact ⟨true, by rw [addressAutocompleteSearch, if_neg hg]; rfl⟩

/-- Instance of `addressAutocompleteSearch_never_fails`: the 5-second
timeout abort resolves to an `ok` empty suggestion list. -/
theorem addressAutocompleteSearch_never_fails_witness :
    ∃ b, addressAutocompleteSearch "roma" .abortTimeout = .ok (b, []) :=
  (addressAutocompleteSearch_never_fails "roma" .abortTimeout).2.2.1 (Or.inl rfl)

/-! ## Debounced autocomplete controller (`address-autocomplete.js`,
`initAddressAutocomplete`) -/

/-- `String.prototype.trim`, written structurally over the character list
so that it evaluates by kernel reduction. -/
def jsTrim (s : String) : String :=
  ⟨((s.data.dropWhile Char.isWhitespace).reverse.dropWhile
      Char.isWhitespace).reverse⟩

/-- What the suggestion `<div>` currently holds. -/
inductive ListContent where
  | empty
  | noResults
  | errorNotice
  | items (reqId : Nat) (results : List AddressSuggestion)
  deriving DecidableEq, Repr

/-- Per-binding state of `initAddressAutocomplete`: the pending debounce
timer with its captured (trimmed) query, the boolean `currentRequest` flag
(`false` models `null`), the issued-but-unresolved requests tagged with
issue order, the dropdown visibility and content, and `lastResults`. -/
structure AcState where
  debounce : Option String
  currentRequest : Bool
  inflight : List (Nat × String)
  nextId : Nat
  listShown : Bool
  content : ListContent
  lastResults : List AddressSuggestion
  deriving DecidableEq, Repr

def acInit : AcState :=
  { debounce := none, currentRequest := false, inflight := [], nextId := 0
    listShown := false, content := .empty, lastResults := [] }

/-- An atomic turn of the controller: an input event, the debounce timer
firing (flag set, request issued, execution suspends at the `await`), or a
request's response arriving (the continuation after the `await` up to the
`finally` runs as one synchronous block). -/
inductive AcEvent where
  | inputEv (value : String)
  | fire
  | resolve (id : Nat) (results : List AddressSuggestion)
  deriving DecidableEq, Repr

/-- One controller turn, mirroring the `input` listener and the debounce
callback of `initAddressAutocomplete`: on input, clear the timer and null
the flag, short queries hide and empty the list with no timer scheduled;
on fire, set `currentRequest = true` and issue the search; on resolve, the
`if (!currentRequest) return` guard decides whether the results are
rendered, and the `finally` nulls the flag on every path. -/
def acStep (s : AcState) : AcEvent → AcState
  | .inputEv v =>
    let s1 := { s with debounce := none, currentRequest := false }
    let query := jsTrim v
    if query.data.length < 2 then
      { s1 with listShown := false, content := .empty }
    else
      { s1 with debounce := some query }
  | .fire =>
    match s.debounce with
    | none => s
    | some q =>
      { s with debounce := none, currentRequest := true
               inflight := s.inflight ++ [(s.nextId, q)]
               nextId := s.nextId + 1 }
  | .resolve id results =>
    if s.inflight.any (fun p => p.1 == id) then
      let s1 := { s with inflight := s.inflight.filter (fun p => p.1 != id) }
      if s1.currentRequest = false then
        s1
      else if results.isEmpty then
        { s1 with lastResults := results, content := .noResults
                  listShown := true, currentRequest := false }
      else
        { s1 with lastResults := results, content := .items id results
                  listShown := true, currentRequest := false }
    else s

def acRun (s : AcState) (es : List AcEvent) : AcState :=
  es.foldl acStep s

/-- C5: a query whose trimmed length is below 2 makes the geocoding client
return an empty sequence without issuing the network call, and makes the
controller immediately clear and hide the dropdown, scheduling no debounce
timer and issuing no request. -/
theorem short_query_no_network (q : String) (o : FetchOutcome)
    (hq : q.data.length < 2) (s : AcState) (v : String)
    (hv : (jsTrim v).data.length < 2) :
    addressAutocompleteSearch q o = .ok (false, [])
    ∧ (acStep s (.inputEv v)).debounce = none
    ∧ (acStep s (.inputEv v)).listShown = false
    ∧ (acStep s (.inputEv v)).content = .empty
    ∧ (acStep s (.inputEv v)).inflight = s.inflight
    ∧ (acStep s (.inputEv v)).nextId = s.nextId := by
  have hstep : acStep s (.inputEv v)
      = { s with debounce := none, currentRequest := false
                 listShown := false, content := .empty } := by
    rw [acStep]
    simp only [if_pos hv]
  rw [hstep]
  exact ⟨by rw [addressAutocompleteSearch, if_pos (Or.inr hq)], rfl, rfl, rfl,
    rfl, rfl⟩

/-- Instance of `short_query_no_network` at the one-character query `"a"`
and the raw input value `" a "`. -/
theorem short_query_no_network_witness :
    "a".data.length < 2 ∧ (jsTrim " a ").data.length < 2 ∧
    addressAutocompleteSearch "a" .networkError = .ok (false, [])
    ∧ (acStep acInit (.inputEv " a ")).debounce = none :=
  ⟨by decide, by decide,
    (short_query_no_network "a" .networkError (by decide) acInit " a "
      (by decide)).1,
    (short_query_no_network "a" .networkError (by decide) acInit " a "
      (by decide)).2.1⟩

def sugRoma : AddressSuggestion :=
  ⟨"Via Roma, Roma", none, none, none, "address"⟩

def sugMilano : AddressSuggestion :=
  ⟨"Via Milano, Milano", none, none, none, "address"⟩

def sugTorino : AddressSuggestion :=
  ⟨"Via Torino, Torino", none, none, none, "address"⟩

/-- C3 failing run.  Request 0 (`"via roma"`) is superseded by the input
event that leads to request 1 (`"via milano"`); request 1 resolves and
renders first (first conjunct), and request 0 resolves only afterwards —
yet, because a third debounce has meanwhile set the boolean
`currentRequest` flag back to `true`, request 0 passes the
`if (!currentRequest) return` check and its stale results are rendered,
surviving to the end of the run (second conjunct): the flag cannot tell
which request is current, so a superseded result set reaches the DOM. -/
theorem stale_superseded_result_rendered :
    (acRun acInit [.inputEv "via roma", .fire, .inputEv "via milano", .fire,
        .resolve 1 [sugMilano]]).content = .items 1 [sugMilano]
    ∧ (acRun acInit [.inputEv "via roma", .fire, .inputEv "via milano", .fire,
        .resolve 1 [sugMilano], .inputEv "via torino", .fire,
        .resolve 0 [sugRoma], .resolve 2 [sugTorino]]).content
      = .items 0 [sugRoma] := by
  exact ⟨by decide, by decide⟩

end RimborsoKM
